import Mathlib

/-!
Verification of the Trust & Rewards Ledger of the Civvy repository.

The development shallowly embeds two services:

* `RewardMaster` (gamification ledger: XP → MetroPoints conversion, fraud
  window, reward redemption, quiz and vote-pledge flows);
* `IntegrityGuardian` (reputation scoring, hash-chained audit log,
  trust metrics).

Modelling conventions:
* JavaScript timestamps (`Date.now()`, ISO strings compared via `getTime()`)
  are modelled as natural numbers of milliseconds; every operation receives
  the current clock value `now` explicitly.
* Random identifier suffixes (`txn_${Date.now()}_${random}`) do not influence
  any behaviour verified here; identifiers are either omitted from records or
  passed in as explicit arguments where they are hashed.
* JS numbers are modelled as `Nat`/`Int`/`ℚ` as appropriate; all the division
  and remainder sites (`Math.floor(a / b)`, `a % b`, `Math.round`) operate on
  non-negative operands of positive divisors in the embedded code paths, where
  `Nat` division/remainder and `⌊x + 1/2⌋` agree exactly with the JS
  semantics.
* The in-memory `Map` stores become total functions from keys; a missing
  profile is identified with the default (freshly created) profile, which has
  identical field values.
-/

namespace Civvy

/-! ## RewardMaster — constants and data
    (src/server/services/IssueMatcher.js, class `RewardMaster`) -/

/-- `XP_TO_METROPOINTS_RATIO = 100` — 100 XP = 1 MetroPoint. -/
def XP_TO_METROPOINTS : Nat := 100

/-- `FRAUD_DETECTION_WINDOW = 24 * 60 * 60 * 1000` milliseconds. -/
def FRAUD_DETECTION_WINDOW : Nat := 24 * 60 * 60 * 1000

/-- The fixed `XP_REWARDS` table; unknown actions give `0`
    (`this.XP_REWARDS[action] || 0`). -/
def XP_REWARDS (action : String) : Nat :=
  if action = "quiz_completion" then 50
  else if action = "quiz_perfect_score" then 100
  else if action = "vote_pledge" then 100
  else if action = "flag_submission" then 25
  else if action = "flag_verified" then 50
  else if action = "content_share" then 15
  else if action = "daily_login" then 10
  else if action = "streak_bonus" then 25
  else 0

/-- The part of an `awardXP` metadata object that the engine inspects:
    `detectFraud` reads only `metadata.electionId`.  Other metadata fields
    (quizId, score, …) are carried opaquely and never branched on. -/
structure Metadata where
  electionId : Option String := none
deriving DecidableEq, Repr

/-- A ledger transaction.  Earn transactions are
    `{userId, type:'earn', action, xpAmount, metroPointsEarned, timestamp,
    metadata}`; redeem transactions are
    `{userId, type:'redeem', rewardId, quantity, cost, timestamp, …}`.
    A redeem transaction has no `action` field (JS `undefined`). -/
inductive Txn
  | earn (userId action : String) (xpAmount : Nat) (metroPointsEarned : Int)
      (timestamp : Nat) (metadata : Metadata)
  | redeem (userId rewardId : String) (quantity cost : Int) (timestamp : Nat)
deriving DecidableEq, Repr

/-- `txn.userId`. -/
def Txn.userIdOf : Txn → String
  | .earn u _ _ _ _ _ => u
  | .redeem u _ _ _ _ => u

/-- `txn.action` (`undefined`, i.e. `none`, on redeem transactions). -/
def Txn.actionOf : Txn → Option String
  | .earn _ a _ _ _ _ => some a
  | .redeem _ _ _ _ _ => none

/-- `new Date(txn.timestamp).getTime()`. -/
def Txn.timestampOf : Txn → Nat
  | .earn _ _ _ _ ts _ => ts
  | .redeem _ _ _ _ ts => ts

/-- `txn.metadata?.electionId`. -/
def Txn.electionIdOf : Txn → Option String
  | .earn _ _ _ _ _ m => m.electionId
  | .redeem _ _ _ _ _ => none

/-- The per-user profile held in `this.userProfiles`.  `level`, `badges` and
    `createdAt` are never read by the operations verified here and are
    omitted; `level` is the derived `floor(totalXP / 500) + 1`. -/
structure UserProfile where
  totalXP : Nat := 0
  currentXP : Nat := 0
  metroPoints : Int := 0
  transactions : List Txn := []
  redemptions : List Txn := []
deriving DecidableEq, Repr

/-- `profile.level = Math.floor(profile.totalXP / 500) + 1`. -/
def UserProfile.level (p : UserProfile) : Nat := p.totalXP / 500 + 1

/-- A vote pledge record in `this.pledgeHistory`. -/
structure Pledge where
  userId : String
  electionId : String
  pledgeType : String
  scheduledDate : String := ""
  timestamp : Nat
deriving DecidableEq, Repr

/-- The mutable state of a `RewardMaster` instance. -/
structure RewardState where
  profiles : String → UserProfile
  transactionHistory : List Txn
  pledgeHistory : List Pledge

/-- A freshly constructed `RewardMaster`. -/
def RewardState.init : RewardState :=
  ⟨fun _ => {}, [], []⟩

/-- `getUserProfile`: returns the stored profile, lazily treating absent
    users as holding the default (freshly created) profile. -/
def getUserProfile (s : RewardState) (userId : String) : UserProfile :=
  s.profiles userId

/-- `this.userProfiles.set(userId, profile)`. -/
def RewardState.setProfile (s : RewardState) (userId : String)
    (p : UserProfile) : RewardState :=
  { s with profiles := fun u => if u = userId then p else s.profiles u }

/-! ## Fraud detection and awardXP -/

/-- The filter predicate of `detectFraud`:
    `txn.userId === userId && txn.action === action &&
     Date.now() - new Date(txn.timestamp).getTime() < FRAUD_DETECTION_WINDOW`.
    (With `Nat` subtraction a future-dated transaction matches, exactly as the
    negative difference does in JS.) -/
def txnInWindow (now : Nat) (userId action : String) (t : Txn) : Bool :=
  t.userIdOf == userId && t.actionOf == some action &&
    decide (now - t.timestampOf < FRAUD_DETECTION_WINDOW)

/-- `detectFraud(userId, action, metadata)`. -/
def detectFraud (s : RewardState) (now : Nat) (userId action : String)
    (metadata : Metadata) : Bool :=
  let recentTransactions := s.transactionHistory.filter (txnInWindow now userId action)
  if action == "vote_pledge" && metadata.electionId.isSome then
    recentTransactions.any (fun t => t.electionIdOf == metadata.electionId)
  else
    decide (recentTransactions.length > 0)

/-- The `data` object of a successful `awardXP` call. -/
structure AwardData where
  xpEarned : Nat
  metroPointsEarned : Int
  totalXP : Nat
  currentXP : Nat
  metroPoints : Int
deriving DecidableEq, Repr

/-- The result object of `awardXP`. -/
structure AwardOutcome where
  success : Bool
  error : Option String := none
  data : Option AwardData := none
deriving DecidableEq, Repr

/-- `awardXP(userId, action, metadata)`.  Returns the result object and the
    updated engine state. -/
def awardXP (s : RewardState) (now : Nat) (userId action : String)
    (metadata : Metadata) : AwardOutcome × RewardState :=
  let xpAmount := XP_REWARDS action
  if xpAmount = 0 then
    ({ success := false, error := some "Invalid action type" }, s)
  else if detectFraud s now userId action metadata then
    ({ success := false, error := some "Duplicate action detected within 24 hours" }, s)
  else
    let p := getUserProfile s userId
    let totalXP := p.totalXP + xpAmount
    let currentXP0 := p.currentXP + xpAmount
    let newMetroPoints : Int := (currentXP0 / XP_TO_METROPOINTS : Nat)
    let metroPointsEarned : Int := newMetroPoints - p.metroPoints
    let metroPoints := if 0 < metroPointsEarned then newMetroPoints else p.metroPoints
    let currentXP := if 0 < metroPointsEarned then currentXP0 % XP_TO_METROPOINTS else currentXP0
    let txn : Txn := .earn userId action xpAmount metroPointsEarned now metadata
    let p2 : UserProfile :=
      { totalXP := totalXP, currentXP := currentXP, metroPoints := metroPoints,
        transactions := p.transactions ++ [txn], redemptions := p.redemptions }
    let s2 := { s.setProfile userId p2 with
                transactionHistory := s.transactionHistory ++ [txn] }
    ({ success := true,
       data := some ⟨xpAmount, metroPointsEarned, totalXP, currentXP, metroPoints⟩ }, s2)

/-! ## Reward catalog and redemption -/

/-- A `getAvailableRewards()` catalog entry.  The `value`, `icon`,
    `validDays` and `duration` fields only feed the mock fulfillment
    services, which succeed unconditionally, and are omitted. -/
structure CatalogReward where
  id : String
  cost : Int
  category : String
deriving DecidableEq, Repr

/-- The static `getAvailableRewards()` catalog. -/
def getAvailableRewards : List CatalogReward :=
  [⟨"omny_5", 5, "transit"⟩,
   ⟨"omny_10", 10, "transit"⟩,
   ⟨"coffee_discount", 3, "local"⟩,
   ⟨"restaurant_discount", 4, "local"⟩,
   ⟨"xp_boost", 2, "boost"⟩]

/-- The result of `redeemReward`. -/
inductive RedeemOutcome
  | rewardNotFound
  | insufficientPoints (required available : Int)
  | redeemed (remainingPoints : Int)
deriving DecidableEq, Repr

/-- `redeemReward(userId, rewardId, quantity)`.  The category-specific
    fulfillment calls (`MockOMNYService.addCredit`,
    `MockMerchantService.generateVoucher`, `processDigitalReward`) all return
    `success: true` unconditionally, so the fulfillment branch never aborts. -/
def redeemReward (s : RewardState) (now : Nat) (userId rewardId : String)
    (quantity : Int) : RedeemOutcome × RewardState :=
  let p := getUserProfile s userId
  match getAvailableRewards.find? (fun r => r.id == rewardId) with
  | none => (.rewardNotFound, s)
  | some reward =>
    let totalCost := reward.cost * quantity
    if p.metroPoints < totalCost then
      (.insufficientPoints totalCost p.metroPoints, s)
    else
      let txn : Txn := .redeem userId rewardId quantity totalCost now
      let p2 : UserProfile :=
        { p with metroPoints := p.metroPoints - totalCost,
                 transactions := p.transactions ++ [txn],
                 redemptions := p.redemptions ++ [txn] }
      let s2 := { s.setProfile userId p2 with
                  transactionHistory := s.transactionHistory ++ [txn] }
      (.redeemed p2.metroPoints, s2)

/-! ## Quiz completion and vote pledges -/

/-- `calculateQuizScore(userAnswers, correctAnswers)`:
    `Math.round((correct / correctAnswers.length) * 100)`, where out-of-range
    lookups (`undefined === v`) never count.  For non-negative `x`,
    `Math.round x = ⌊x + 1/2⌋`, so the score is
    `(200·correct + total) / (2·total)` in natural division. -/
def calculateQuizScore (userAnswers correctAnswers : List Nat) : Nat :=
  if correctAnswers.length = 0 then 0
  else
    let correct :=
      (List.range correctAnswers.length).countP
        (fun i => userAnswers[i]? == correctAnswers[i]?)
    (200 * correct + correctAnswers.length) / (2 * correctAnswers.length)

/-- The quiz-completion event payload consumed by `processQuizCompletion`. -/
structure QuizData where
  quizId : String
  answers : List Nat
  correctAnswers : List Nat
  timeSpent : Nat := 0
deriving DecidableEq, Repr

/-- The result object of `processQuizCompletion`. -/
structure QuizOutcome where
  success : Bool
  score : Nat := 0
  isPerfectScore : Bool := false
  baseReward : Option AwardData := none
  bonusReward : Option AwardData := none
  totalXPEarned : Nat := 0
deriving DecidableEq, Repr

/-- `processQuizCompletion(userId, quizData)`.  The metadata passed to
    `awardXP` (quizId, score, …) carries no `electionId`. -/
def processQuizCompletion (s : RewardState) (now : Nat) (userId : String)
    (quizData : QuizData) : QuizOutcome × RewardState :=
  let score := calculateQuizScore quizData.answers quizData.correctAnswers
  let isPerfectScore : Bool := score == 100
  let br := awardXP s now userId "quiz_completion" {}
  let bonus :=
    if isPerfectScore && br.1.success then
      let b := awardXP br.2 now userId "quiz_perfect_score" {}
      (b.1.data, b.2)
    else (none, br.2)
  ({ success := true, score := score, isPerfectScore := isPerfectScore,
     baseReward := br.1.data, bonusReward := bonus.1,
     totalXPEarned := ((br.1.data).map (·.xpEarned)).getD 0 +
       (bonus.1.map (·.xpEarned)).getD 0 }, bonus.2)

/-- The vote-pledge event payload. -/
structure PledgeData where
  electionId : String
  pledgeType : String
  scheduledDate : String := ""
deriving DecidableEq, Repr

/-- The result object of `processVotePledge`. -/
structure PledgeOutcome where
  success : Bool
  error : Option String := none
  pledge : Option Pledge := none
  reward : Option AwardData := none
deriving DecidableEq, Repr

/-- `processVotePledge(userId, pledgeData)`. -/
def processVotePledge (s : RewardState) (now : Nat) (userId : String)
    (pd : PledgeData) : PledgeOutcome × RewardState :=
  let recentPledge := s.pledgeHistory.find? (fun pl =>
    pl.userId == userId && pl.electionId == pd.electionId &&
      decide (now - pl.timestamp < FRAUD_DETECTION_WINDOW))
  match recentPledge with
  | some _ =>
    ({ success := false, error := some "Duplicate pledge detected within 24 hours" }, s)
  | none =>
    let pledge : Pledge :=
      ⟨userId, pd.electionId, pd.pledgeType, pd.scheduledDate, now⟩
    let s1 := { s with pledgeHistory := s.pledgeHistory ++ [pledge] }
    let r := awardXP s1 now userId "vote_pledge" { electionId := some pd.electionId }
    ({ success := true, pledge := some pledge, reward := r.1.data }, r.2)

/-! ## IntegrityGuardian — reputation scoring
    (src/server/services/IntegrityGuardian.js) -/

/-- One day of milliseconds (`1000 * 60 * 60 * 24`). -/
def msPerDay : Nat := 1000 * 60 * 60 * 24

/-- The action-history object passed to `calculateUserReputation`; absent
    counters default to `0` and an absent `accountCreated` defaults to the
    current time (`getUserHistory`). -/
structure UserHistory where
  flag_verified : Nat := 0
  flag_rejected : Nat := 0
  quiz_perfect_score : Nat := 0
  vote_pledge_fulfilled : Nat := 0
  content_shared : Nat := 0
  community_reports : Nat := 0
  accountCreated : Option Nat := none
deriving DecidableEq, Repr

/-- The history after `getUserHistory` has filled the defaults. -/
structure FilledHistory where
  flag_verified : Nat
  flag_rejected : Nat
  quiz_perfect_score : Nat
  vote_pledge_fulfilled : Nat
  content_shared : Nat
  community_reports : Nat
  accountCreated : Nat
deriving DecidableEq, Repr

/-- `getUserHistory(userId, providedHistory)`: fills every counter with `0`
    and `accountCreated` with `new Date().toISOString()` when missing. -/
def getUserHistory (now : Nat) (provided : UserHistory) : FilledHistory :=
  ⟨provided.flag_verified, provided.flag_rejected, provided.quiz_perfect_score,
   provided.vote_pledge_fulfilled, provided.content_shared,
   provided.community_reports, provided.accountCreated.getD now⟩

/-- `Math.floor((Date.now() - accountCreated) / msPerDay)` — `Int.fdiv` is
    floor division, matching `Math.floor` for a positive divisor even when
    the difference is negative. -/
def daysSinceCreation (now accountCreated : Nat) : Int :=
  Int.fdiv ((now : Int) - (accountCreated : Int)) (msPerDay : Int)

/-- The unrounded reputation of `calculateUserReputation`: base 50, plus
    `count × weight` over `REPUTATION_WEIGHTS` (flag_verified 10,
    flag_rejected −5, quiz_perfect_score 5, vote_pledge_fulfilled 8,
    content_shared 2, community_reports −15; the `account_age_days` entry of
    the table reads the undefined `history.account_age_days`, hence counts 0
    in the loop), plus `daysSinceCreation × 0.1`, clamped to `[0, 100]`. -/
def reputationScore (now : Nat) (h : FilledHistory) : ℚ :=
  let weighted : ℚ :=
    (h.flag_verified : ℚ) * 10 + (h.flag_rejected : ℚ) * (-5) +
    (h.quiz_perfect_score : ℚ) * 5 + (h.vote_pledge_fulfilled : ℚ) * 8 +
    (h.content_shared : ℚ) * 2 + (h.community_reports : ℚ) * (-15)
  let withAge : ℚ :=
    50 + weighted + (daysSinceCreation now h.accountCreated : ℚ) * (1/10)
  max 0 (min 100 withAge)

/-- JS `Math.round x = ⌊x + 1/2⌋` (round half toward `+∞`). -/
def jsRound (x : ℚ) : Int := ⌊x + 1/2⌋

/-- `getTrustLevel(reputation)` against the `TRUST_THRESHOLDS`
    (`HIGH_TRUST: 80`, `MEDIUM_TRUST: 50`, `LOW_TRUST: 20`). -/
def getTrustLevel (reputation : ℚ) : String :=
  if reputation ≥ 80 then "high"
  else if reputation ≥ 50 then "medium"
  else if reputation ≥ 20 then "low"
  else "flagged"

/-- `getReputationBreakdown(history)`: the `(count, weight, contribution)`
    triples of the weight table for the actions with positive count, in
    table order.  `history.account_age_days` is undefined, so that row never
    appears. -/
def getReputationBreakdown (h : FilledHistory) :
    List (String × Nat × ℚ × ℚ) :=
  let entries : List (String × Nat × ℚ) :=
    [("flag_verified", h.flag_verified, 10),
     ("flag_rejected", h.flag_rejected, -5),
     ("quiz_perfect_score", h.quiz_perfect_score, 5),
     ("vote_pledge_fulfilled", h.vote_pledge_fulfilled, 8),
     ("content_shared", h.content_shared, 2),
     ("account_age_days", 0, 1/10),
     ("community_reports", h.community_reports, -15)]
  (entries.filter (fun e => decide (0 < e.2.1))).map
    (fun e => (e.1, e.2.1, e.2.2, (e.2.1 : ℚ) * e.2.2))

/-- The record stored in `this.userReputations`. -/
structure ReputationRecord where
  score : Int
  trustLevel : String
  history : FilledHistory
  lastUpdated : Nat
deriving DecidableEq, Repr

/-- The `data` object returned by a successful `calculateUserReputation`. -/
structure ReputationData where
  userId : String
  reputation : Int
  trustLevel : String
  breakdown : List (String × Nat × ℚ × ℚ)
deriving DecidableEq, Repr

/-! ## IntegrityGuardian — audit chain -/

/-- The metadata object passed to `logModerationAction`.  The engine reads
    `moderatorId`, `contentId`, `userId`, `decision` and `reason`; every
    other payload field (flagReason, weight, …) is carried opaquely in
    `payload`. -/
structure AuditMetadata where
  moderatorId : Option String := none
  contentId : Option String := none
  userId : Option String := none
  decision : Option String := none
  reason : Option String := none
  payload : String := ""
deriving DecidableEq, Repr

/-- The canonically serialized fields over which the entry hash is computed:
    `JSON.stringify({id, timestamp, action, contentId, decision})`.  The
    serialization of this fixed shape is injective in the five fields. -/
structure HashInput where
  id : String
  timestamp : Nat
  action : String
  contentId : Option String
  decision : Option String
deriving DecidableEq, Repr

/-- `crypto.createHash('sha256')…digest('hex')`, modelled as an injective
    deterministic digest of the serialized input (represented by the input
    itself; the proofs below rely only on determinism). -/
def sha256 (input : HashInput) : HashInput := input

/-- An audit-log entry. -/
structure AuditEntry where
  id : String
  timestamp : Nat
  action : String
  metadata : AuditMetadata
  moderatorId : String
  contentId : Option String
  userId : Option String
  decision : Option String
  reason : Option String
  hash : HashInput
  previousHash : Option HashInput := none
deriving DecidableEq, Repr

/-- The hash input recomputed from an entry's stored fields
    (`verifyAuditIntegrity`). -/
def entryHashInput (e : AuditEntry) : HashInput :=
  ⟨e.id, e.timestamp, e.action, e.contentId, e.decision⟩

/-- The per-entry hash check of `verifyAuditIntegrity`. -/
def entryHashValid (e : AuditEntry) : Bool :=
  e.hash == sha256 (entryHashInput e)

/-- The `i > 0` iterations of the `verifyAuditIntegrity` loop: each entry's
    hash is recomputed and its `previousHash` compared with the physically
    preceding entry's stored hash. -/
def verifyChainFrom : AuditEntry → List AuditEntry → Bool
  | _, [] => true
  | prev, e :: rest =>
    entryHashValid e && e.previousHash == some prev.hash && verifyChainFrom e rest

/-- `verifyAuditIntegrity()` over a given audit log. -/
def verifyAuditIntegrity (log : List AuditEntry) : Bool :=
  match log with
  | [] => true
  | e :: rest => entryHashValid e && verifyChainFrom e rest

/-- The mutable state of an `IntegrityGuardian` instance. -/
structure GuardianState where
  auditLog : List AuditEntry
  userReputations : String → Option ReputationRecord
  moderationActions : List AuditEntry

/-- A freshly constructed `IntegrityGuardian`. -/
def GuardianState.init : GuardianState :=
  ⟨[], fun _ => none, []⟩

/-- `calculateUserReputation(userId, userHistory)`: recomputes the bounded
    score from the provided history, stores the rounded record and returns
    `{userId, reputation, trustLevel, breakdown}`. -/
def calculateUserReputation (s : GuardianState) (now : Nat) (userId : String)
    (userHistory : UserHistory) : ReputationData × GuardianState :=
  let history := getUserHistory now userHistory
  let reputation := reputationScore now history
  let record : ReputationRecord :=
    ⟨jsRound reputation, getTrustLevel reputation, history, now⟩
  let s2 := { s with userReputations :=
                fun u => if u = userId then some record else s.userReputations u }
  (⟨userId, jsRound reputation, getTrustLevel reputation,
    getReputationBreakdown history⟩, s2)

/-- `logModerationAction(action, metadata)`.  `freshId` stands for the
    random `audit_${Date.now()}_${suffix}` identifier.  When the metadata
    names a user, `updateUserReputationFromAction` runs; its score nudges are
    immediately overwritten by the final `calculateUserReputation(userId)`
    call, whose net effect is storing the default-history record. -/
def logModerationAction (s : GuardianState) (now : Nat) (freshId : String)
    (action : String) (metadata : AuditMetadata) : AuditEntry × GuardianState :=
  let hashInput : HashInput :=
    ⟨freshId, now, action, metadata.contentId, metadata.decision⟩
  let entry : AuditEntry :=
    { id := freshId, timestamp := now, action := action, metadata := metadata,
      moderatorId := metadata.moderatorId.getD "system",
      contentId := metadata.contentId, userId := metadata.userId,
      decision := metadata.decision, reason := metadata.reason,
      hash := sha256 hashInput,
      previousHash := s.auditLog.getLast?.map (·.hash) }
  let s1 := { s with auditLog := s.auditLog ++ [entry],
                     moderationActions := s.moderationActions ++ [entry] }
  let s2 :=
    match metadata.userId with
    | some uid => (calculateUserReputation s1 now uid {}).2
    | none => s1
  (entry, s2)

/-! ## IntegrityGuardian — trust metrics -/

/-- `calculateFlagWeight(reputation)`. -/
def calculateFlagWeight (reputation : ℚ) : ℚ :=
  if reputation ≥ 80 then 1.5
  else if reputation ≥ 60 then 1.2
  else if reputation ≥ 40 then 1.0
  else if reputation ≥ 20 then 0.8
  else 0.5

/-- `getUserRestrictions(reputation)`: pushes `limited_flagging` and
    `content_review_required` when `reputation < LOW_TRUST (20)` and
    `account_suspended` when `reputation < FLAGGED_USER (0)`. -/
def getUserRestrictions (reputation : ℚ) : List String :=
  (if reputation < 20 then ["limited_flagging", "content_review_required"] else []) ++
  (if reputation < 0 then ["account_suspended"] else [])

/-- The `data` object of `getUserTrustMetrics`. -/
structure TrustMetrics where
  userId : String
  reputation : Int
  trustLevel : String
  flagWeight : ℚ
  canModerate : Bool
  restrictions : List String
deriving DecidableEq, Repr

/-- `getUserTrustMetrics(userId)`: `none` models the
    `User reputation not found` error. -/
def getUserTrustMetrics (s : GuardianState) (userId : String) :
    Option TrustMetrics :=
  (s.userReputations userId).map (fun rep =>
    ⟨userId, rep.score, rep.trustLevel, calculateFlagWeight (rep.score : ℚ),
     decide ((rep.score : ℚ) ≥ 80), getUserRestrictions (rep.score : ℚ)⟩)

/-- The trust tier exactly as the specification words it:
    score ≥ 80 high, ≥ 50 medium, ≥ 20 low, otherwise flagged. -/
def specTrustTier (score : ℚ) : String :=
  if score ≥ 80 then "high"
  else if score ≥ 50 then "medium"
  else if score ≥ 20 then "low"
  else "flagged"

/-- One `logModerationAction` call: its clock value, its random identifier
    and its arguments. -/
structure AuditOp where
  now : Nat
  freshId : String
  action : String
  metadata : AuditMetadata

/-- A chain built solely by successive `logModerationAction` appends. -/
def runAuditOps : GuardianState → List AuditOp → GuardianState
  | s, [] => s
  | s, op :: ops =>
    runAuditOps (logModerationAction s op.now op.freshId op.action op.metadata).2 ops

/-- Overwrite the stored metadata payload of the entry at position `i`,
    leaving every other field (in particular the hash fields) intact —
    the in-place tampering `auditLog[i].metadata = …`. -/
def mutatePayloadAt : List AuditEntry → Nat → AuditMetadata → List AuditEntry
  | [], _, _ => []
  | e :: rest, 0, md => { e with metadata := md } :: rest
  | e :: rest, i + 1, md => e :: mutatePayloadAt rest i md

/-- `s₂` has every ledger transaction of `s₁` (the transaction log is
    append-only: every engine operation only pushes onto it). -/
def txnLogExtends (s1 s2 : RewardState) : Prop :=
  ∀ t, t ∈ s1.transactionHistory → t ∈ s2.transactionHistory

/-- `s₂` has every vote pledge of `s₁` (the pledge history is append-only). -/
def pledgeLogExtends (s1 s2 : RewardState) : Prop :=
  ∀ p, p ∈ s1.pledgeHistory → p ∈ s2.pledgeHistory

/-! ## Shared lemmas -/

section
attribute [local semireducible] Rat.add Rat.mul Rat.inv Rat.sub Rat.ofScientific

lemma getUserProfile_setProfile_self (s : RewardState) (u : String)
    (p : UserProfile) : getUserProfile (s.setProfile u p) u = p := by
  simp [getUserProfile, RewardState.setProfile]

/-- A failed `awardXP` returns no data and leaves the state unchanged. -/
lemma awardXP_fail (s : RewardState) (now : Nat) (userId action : String)
    (m : Metadata) (h : (awardXP s now userId action m).1.success = false) :
    (awardXP s now userId action m).1.data = none ∧
    (awardXP s now userId action m).2 = s := by
  unfold awardXP at *
  by_cases hxp : XP_REWARDS action = 0
  · simp [hxp]
  · by_cases hf : detectFraud s now userId action m
    · simp [hxp, hf]
    · simp [hxp, hf] at h

/-- A successful `awardXP` appends its earn transaction to the global log
    and implies that the action is known and the fraud check passed. -/
lemma awardXP_success (s : RewardState) (now : Nat) (userId action : String)
    (m : Metadata) (h : (awardXP s now userId action m).1.success = true) :
    XP_REWARDS action ≠ 0 ∧ detectFraud s now userId action m = false ∧
    ∃ mpe : Int,
      (awardXP s now userId action m).2.transactionHistory =
        s.transactionHistory ++
          [Txn.earn userId action (XP_REWARDS action) mpe now m] := by
  unfold awardXP at *
  by_cases hxp : XP_REWARDS action = 0
  · simp [hxp] at h
  · by_cases hf : detectFraud s now userId action m
    · simp [hxp, hf] at h
    · refine ⟨hxp, by simpa using hf, ?_⟩
      simp only [hxp, hf, if_false, if_neg, Bool.false_eq_true]
      exact ⟨_, rfl⟩

/-- A known action that passes the fraud check is awarded successfully. -/
lemma awardXP_success_of (s : RewardState) (now : Nat) (userId action : String)
    (m : Metadata) (hxp : XP_REWARDS action ≠ 0)
    (hf : detectFraud s now userId action m = false) :
    (awardXP s now userId action m).1.success = true ∧
    ((awardXP s now userId action m).1.data).isSome = true := by
  simp [awardXP, hxp, hf]

/-- `awardXP` never touches the pledge history. -/
lemma awardXP_pledgeHistory (s : RewardState) (now : Nat)
    (userId action : String) (m : Metadata) :
    (awardXP s now userId action m).2.pledgeHistory = s.pledgeHistory := by
  unfold awardXP
  by_cases hxp : XP_REWARDS action = 0
  · simp [hxp]
  · by_cases hf : detectFraud s now userId action m <;>
      simp [hxp, hf, RewardState.setProfile]

/-! ## C1 -/

/-- Claim C1 (code bug): awarding `vote_pledge` (100 XP) and then
    `quiz_perfect_score` (100 XP) to a fresh user leaves
    `currentXP = 100 ∉ [0, 100)` and `metroPoints = 1`, not the cumulative
    quotient `200 / 100 = 2`: the conversion stalls because
    `metroPointsEarned` compares `floor(currentXP / RATIO)` with the running
    `metroPoints` balance. -/
theorem awardXP_conversion_stall :
    (awardXP (awardXP RewardState.init 0 "u1" "vote_pledge" {}).2
        1 "u1" "quiz_perfect_score" {}).1.success = true ∧
    (getUserProfile
        (awardXP (awardXP RewardState.init 0 "u1" "vote_pledge" {}).2
          1 "u1" "quiz_perfect_score" {}).2 "u1").totalXP = 200 ∧
    (getUserProfile
        (awardXP (awardXP RewardState.init 0 "u1" "vote_pledge" {}).2
          1 "u1" "quiz_perfect_score" {}).2 "u1").currentXP = 100 ∧
    ¬ (getUserProfile
        (awardXP (awardXP RewardState.init 0 "u1" "vote_pledge" {}).2
          1 "u1" "quiz_perfect_score" {}).2 "u1").currentXP < XP_TO_METROPOINTS ∧
    (getUserProfile
        (awardXP (awardXP RewardState.init 0 "u1" "vote_pledge" {}).2
          1 "u1" "quiz_perfect_score" {}).2 "u1").metroPoints = 1 := by
  decide

/-! ## C2 -/

/-- Claim C2: `redeemReward` never drives `metroPoints` below zero; an
    unknown reward id or an insufficient balance returns an error (the
    latter carrying the required and available amounts) with no state
    change; on success the balance drops by exactly `cost × quantity` and
    exactly one redeem transaction is recorded. -/
theorem redeemReward_balance_safety (s : RewardState) (now : Nat)
    (userId rewardId : String) (quantity : Int) :
    (0 ≤ (getUserProfile s userId).metroPoints →
       0 ≤ (getUserProfile (redeemReward s now userId rewardId quantity).2
              userId).metroPoints) ∧
    (getAvailableRewards.find? (fun r => r.id == rewardId) = none →
       redeemReward s now userId rewardId quantity = (.rewardNotFound, s)) ∧
    (∀ reward, getAvailableRewards.find? (fun r => r.id == rewardId) = some reward →
       (getUserProfile s userId).metroPoints < reward.cost * quantity →
       redeemReward s now userId rewardId quantity =
         (.insufficientPoints (reward.cost * quantity)
            (getUserProfile s userId).metroPoints, s)) ∧
    (∀ reward, getAvailableRewards.find? (fun r => r.id == rewardId) = some reward →
       ¬ (getUserProfile s userId).metroPoints < reward.cost * quantity →
       (redeemReward s now userId rewardId quantity).1 =
         .redeemed ((getUserProfile s userId).metroPoints - reward.cost * quantity) ∧
       (getUserProfile (redeemReward s now userId rewardId quantity).2
           userId).metroPoints =
         (getUserProfile s userId).metroPoints - reward.cost * quantity ∧
       (redeemReward s now userId rewardId quantity).2.transactionHistory =
         s.transactionHistory ++
           [Txn.redeem userId rewardId quantity (reward.cost * quantity) now] ∧
       (getUserProfile (redeemReward s now userId rewardId quantity).2
           userId).redemptions =
         (getUserProfile s userId).redemptions ++
           [Txn.redeem userId rewardId quantity (reward.cost * quantity) now]) := by
  refine ⟨?_, ?_, ?_, ?_⟩
  · intro h0
    unfold redeemReward
    cases hf : getAvailableRewards.find? (fun r => r.id == rewardId) with
    | none => simpa using h0
    | some reward =>
      by_cases hlt : (getUserProfile s userId).metroPoints < reward.cost * quantity
      · simpa [hlt] using h0
      · have hge := not_lt.mp hlt
        simp only [hlt, if_false, if_neg, not_false_iff]
        simp [getUserProfile, RewardState.setProfile]
        have : (getUserProfile s userId).metroPoints - reward.cost * quantity ≥ 0 := by
          simpa [getUserProfile] using sub_nonneg.mpr hge
        simpa [getUserProfile] using this
  · intro hf
    unfold redeemReward
    rw [hf]
  · intro reward hf hlt
    unfold redeemReward
    rw [hf]
    simp [hlt]
  · intro reward hf hlt
    unfold redeemReward
    rw [hf]
    simp only [getUserProfile] at hlt ⊢
    rw [if_neg hlt]
    simp [RewardState.setProfile]

/-- Witness for C2: concrete instances of all four cases — a fresh user
    keeps a non-negative balance; redeeming an unknown id fails; redeeming
    `omny_5` with zero balance reports `required 5, available 0`; redeeming
    zero copies succeeds and reduces the balance by exactly the cost. -/
theorem redeemReward_balance_safety_witness :
    0 ≤ (getUserProfile (redeemReward RewardState.init 0 "u" "omny_5" 1).2
          "u").metroPoints ∧
    redeemReward RewardState.init 0 "u" "missing" 1 =
      (.rewardNotFound, RewardState.init) ∧
    redeemReward RewardState.init 0 "u" "omny_5" 1 =
      (.insufficientPoints (5 * 1)
        (getUserProfile RewardState.init "u").metroPoints, RewardState.init) ∧
    (redeemReward RewardState.init 0 "u" "omny_5" 0).1 =
      .redeemed ((getUserProfile RewardState.init "u").metroPoints - 5 * 0) := by
  refine ⟨(redeemReward_balance_safety RewardState.init 0 "u" "omny_5" 1).1 (by decide),
          (redeemReward_balance_safety RewardState.init 0 "u" "missing" 1).2.1 (by decide),
          ?_, ?_⟩
  · exact (redeemReward_balance_safety RewardState.init 0 "u" "omny_5" 1).2.2.1
      ⟨"omny_5", 5, "transit"⟩ (by decide) (by decide)
  · exact ((redeemReward_balance_safety RewardState.init 0 "u" "omny_5" 0).2.2.2
      ⟨"omny_5", 5, "transit"⟩ (by decide) (by decide)).1

/-! ## C9 -/

/-- Every catalog entry is found by its own id (the ids are distinct). -/
lemma catalog_find_self (r : CatalogReward) (hr : r ∈ getAvailableRewards) :
    getAvailableRewards.find? (fun x => x.id == r.id) = some r := by
  fin_cases hr <;> rfl

/-- Every catalog entry has a positive cost. -/
lemma catalog_cost_pos (r : CatalogReward) (hr : r ∈ getAvailableRewards) :
    0 < r.cost := by
  fin_cases hr <;> decide

/-- Claim C9: `redeemReward` performs no validation of `quantity`; for any
    catalog reward and any negative quantity the sufficiency check passes
    against any non-negative balance, the call succeeds, and the balance
    strictly increases by `cost × |quantity|` — a redemption that mints
    points. -/
theorem redeemReward_negative_quantity_mints (s : RewardState) (now : Nat)
    (userId : String) (reward : CatalogReward) (quantity : Int)
    (hr : reward ∈ getAvailableRewards) (hq : quantity < 0)
    (h0 : 0 ≤ (getUserProfile s userId).metroPoints) :
    (redeemReward s now userId reward.id quantity).1 =
      .redeemed ((getUserProfile s userId).metroPoints - reward.cost * quantity) ∧
    (getUserProfile (redeemReward s now userId reward.id quantity).2
        userId).metroPoints =
      (getUserProfile s userId).metroPoints + reward.cost * (-quantity) ∧
    (getUserProfile s userId).metroPoints <
      (getUserProfile (redeemReward s now userId reward.id quantity).2
        userId).metroPoints := by
  have hcost := catalog_cost_pos reward hr
  have hneg : reward.cost * quantity < 0 := mul_neg_of_pos_of_neg hcost hq
  have hnlt : ¬ (getUserProfile s userId).metroPoints < reward.cost * quantity :=
    not_lt.mpr (le_of_lt (lt_of_lt_of_le hneg h0))
  have h4 := (redeemReward_balance_safety s now userId reward.id quantity).2.2.2
    reward (catalog_find_self reward hr) hnlt
  refine ⟨h4.1, ?_, ?_⟩
  · rw [h4.2.1]; ring
  · rw [h4.2.1]; omega

/-- Witness for C9: a fresh user redeeming `omny_5` with quantity `−2`
    succeeds and is credited 10 MetroPoints. -/
theorem redeemReward_negative_quantity_mints_witness :
    (redeemReward RewardState.init 0 "u"
        (CatalogReward.mk "omny_5" 5 "transit").id (-2)).1 =
      .redeemed ((getUserProfile RewardState.init "u").metroPoints - 5 * (-2)) ∧
    (getUserProfile (redeemReward RewardState.init 0 "u"
        (CatalogReward.mk "omny_5" 5 "transit").id (-2)).2 "u").metroPoints =
      (getUserProfile RewardState.init "u").metroPoints + 5 * 2 ∧
    (getUserProfile RewardState.init "u").metroPoints <
      (getUserProfile (redeemReward RewardState.init 0 "u"
        (CatalogReward.mk "omny_5" 5 "transit").id (-2)).2 "u").metroPoints := by
  exact redeemReward_negative_quantity_mints RewardState.init 0 "u"
    ⟨"omny_5", 5, "transit"⟩ (-2) (by decide) (by decide) (by decide)

/-! ## C10 -/

/-- Claim C10: when the underlying `awardXP` of a quiz completion fails
    (e.g. a fraud-rejected duplicate), `processQuizCompletion` still
    returns `success: true` with no base reward data, no bonus attempted,
    `totalXPEarned = 0`, and the state unchanged — the rejection never
    surfaces as an error. -/
theorem processQuizCompletion_swallows_failure (s : RewardState) (now : Nat)
    (userId : String) (quizData : QuizData)
    (hfail : (awardXP s now userId "quiz_completion" {}).1.success = false) :
    processQuizCompletion s now userId quizData =
      ({ success := true,
         score := calculateQuizScore quizData.answers quizData.correctAnswers,
         isPerfectScore :=
           calculateQuizScore quizData.answers quizData.correctAnswers == 100,
         baseReward := none, bonusReward := none, totalXPEarned := 0 }, s) := by
  obtain ⟨hdata, hstate⟩ := awardXP_fail s now userId "quiz_completion" {} hfail
  unfold processQuizCompletion
  simp only [hfail, hdata, hstate, Bool.and_false, if_false, Bool.false_eq_true]
  rfl

/-- Witness for C10: a second `quiz_completion` one millisecond after the
    first is fraud-rejected, yet the quiz flow reports success with zero XP
    and leaves the state as it was. -/
theorem processQuizCompletion_swallows_failure_witness :
    processQuizCompletion (awardXP RewardState.init 0 "u" "quiz_completion" {}).2
        1 "u" (QuizData.mk "q1" [0] [0] 0) =
      ({ success := true,
         score := calculateQuizScore (QuizData.mk "q1" [0] [0] 0).answers
           (QuizData.mk "q1" [0] [0] 0).correctAnswers,
         isPerfectScore :=
           calculateQuizScore (QuizData.mk "q1" [0] [0] 0).answers
             (QuizData.mk "q1" [0] [0] 0).correctAnswers == 100,
         baseReward := none, bonusReward := none, totalXPEarned := 0 },
       (awardXP RewardState.init 0 "u" "quiz_completion" {}).2) := by
  exact processQuizCompletion_swallows_failure
    (awardXP RewardState.init 0 "u" "quiz_completion" {}).2 1 "u"
    (QuizData.mk "q1" [0] [0] 0) (by decide)

/-! ## C4 -/

/-- Counterexample to C4 as stated: two `awardXP` calls with the identical
    pair `("u1", "vote_pledge")` one millisecond apart both succeed, because
    the fraud check scopes vote pledges by `electionId` and the two calls
    carry different election ids. -/
theorem awardXP_vote_pledge_window_leak :
    (awardXP RewardState.init 0 "u1" "vote_pledge"
        { electionId := some "e1" }).1.success = true ∧
    (awardXP (awardXP RewardState.init 0 "u1" "vote_pledge"
          { electionId := some "e1" }).2 1 "u1" "vote_pledge"
        { electionId := some "e2" }).1.success = true := by
  decide

/-- Claim C4 (amended): after a successful `awardXP` for `(userId, action)`
    at time `n₁`, any later `awardXP` for the same pair at `n₂` with
    `n₂ − n₁` inside the 24h window is fraud-rejected with no state change —
    except that a `vote_pledge` call carrying an `electionId` different from
    the earlier call's is exempt.  The earlier call's transaction may reach
    the later state through any interleaving that preserves the append-only
    log. -/
theorem awardXP_window_exclusion (s1 s3 : RewardState) (n1 n2 : Nat)
    (userId action : String) (m1 m2 : Metadata)
    (hsucc : (awardXP s1 n1 userId action m1).1.success = true)
    (hext : txnLogExtends (awardXP s1 n1 userId action m1).2 s3)
    (hcase : action ≠ "vote_pledge" ∨ m2.electionId = none ∨
             m1.electionId = m2.electionId)
    (hwin : n2 - n1 < FRAUD_DETECTION_WINDOW) :
    awardXP s3 n2 userId action m2 =
      ({ success := false,
         error := some "Duplicate action detected within 24 hours" }, s3) := by
  obtain ⟨hxp, -, mpe, hlog⟩ := awardXP_success s1 n1 userId action m1 hsucc
  have htmem : Txn.earn userId action (XP_REWARDS action) mpe n1 m1 ∈
      s3.transactionHistory := by
    apply hext
    rw [hlog]
    exact List.mem_append_right _ (List.mem_singleton.mpr rfl)
  have htwin :
      txnInWindow n2 userId action
        (Txn.earn userId action (XP_REWARDS action) mpe n1 m1) = true := by
    simp [txnInWindow, Txn.userIdOf, Txn.actionOf, Txn.timestampOf, hwin]
  have htf : Txn.earn userId action (XP_REWARDS action) mpe n1 m1 ∈
      s3.transactionHistory.filter (txnInWindow n2 userId action) :=
    List.mem_filter.mpr ⟨htmem, htwin⟩
  have hfraud : detectFraud s3 n2 userId action m2 = true := by
    unfold detectFraud
    by_cases hb : (action == "vote_pledge" && m2.electionId.isSome) = true
    · rw [if_pos hb]
      have ha : action = "vote_pledge" := by
        have := (Bool.and_eq_true _ _).mp hb
        exact beq_iff_eq.mp this.1
      have hsome : m2.electionId.isSome = true :=
        ((Bool.and_eq_true _ _).mp hb).2
      apply List.any_eq_true.mpr
      refine ⟨_, htf, ?_⟩
      rcases hcase with hne | hnone | heq
      · exact absurd ha hne
      · rw [hnone] at hsome; simp at hsome
      · simp [Txn.electionIdOf, heq]
    · rw [if_neg hb]
      simp only [decide_eq_true_eq]
      exact List.length_pos.mpr (List.ne_nil_of_mem htf)
  unfold awardXP
  rw [if_neg hxp, if_pos hfraud]

/-- Witness for C4 (amended): a second `quiz_completion` by the same user
    one millisecond later is rejected and changes nothing. -/
theorem awardXP_window_exclusion_witness :
    awardXP (awardXP RewardState.init 0 "u" "quiz_completion" {}).2
        1 "u" "quiz_completion" {} =
      ({ success := false,
         error := some "Duplicate action detected within 24 hours" },
       (awardXP RewardState.init 0 "u" "quiz_completion" {}).2) := by
  exact awardXP_window_exclusion RewardState.init
    (awardXP RewardState.init 0 "u" "quiz_completion" {}).2 0 1
    "u" "quiz_completion" {} {} (by decide) (fun t ht => ht)
    (Or.inl (by decide)) (by decide)

/-! ## C5 -/

/-- A successful `processVotePledge` appends exactly its pledge record. -/
lemma processVotePledge_success_pledge (s : RewardState) (n : Nat)
    (u : String) (pd : PledgeData)
    (h : (processVotePledge s n u pd).1.success = true) :
    (processVotePledge s n u pd).2.pledgeHistory =
      s.pledgeHistory ++
        [⟨u, pd.electionId, pd.pledgeType, pd.scheduledDate, n⟩] := by
  unfold processVotePledge at *
  cases hf : s.pledgeHistory.find? (fun pl =>
      pl.userId == u && pl.electionId == pd.electionId &&
        decide (n - pl.timestamp < FRAUD_DETECTION_WINDOW)) with
  | some p => rw [hf] at h; simp at h
  | none => simp [awardXP_pledgeHistory]

/-- Claim C5: once a vote pledge for `(userId, electionId)` is accepted, a
    second pledge for the same election inside the 24h window is rejected as
    a duplicate regardless of pledge type and changes nothing; and a pledge
    for an election with no recent pledge or vote-pledge transaction
    succeeds and is rewarded. -/
theorem processVotePledge_election_scoping :
    (∀ (s1 s3 : RewardState) (n1 n2 : Nat) (u e ty1 ty2 d1 d2 : String),
       (processVotePledge s1 n1 u ⟨e, ty1, d1⟩).1.success = true →
       pledgeLogExtends (processVotePledge s1 n1 u ⟨e, ty1, d1⟩).2 s3 →
       n2 - n1 < FRAUD_DETECTION_WINDOW →
       processVotePledge s3 n2 u ⟨e, ty2, d2⟩ =
         ({ success := false,
            error := some "Duplicate pledge detected within 24 hours" }, s3)) ∧
    (∀ (s : RewardState) (n : Nat) (u e ty d : String),
       (∀ pl ∈ s.pledgeHistory, pl.userId = u → pl.electionId = e →
          FRAUD_DETECTION_WINDOW ≤ n - pl.timestamp) →
       (∀ t ∈ s.transactionHistory, t.userIdOf = u →
          t.actionOf = some "vote_pledge" → t.electionIdOf = some e →
          FRAUD_DETECTION_WINDOW ≤ n - t.timestampOf) →
       (processVotePledge s n u ⟨e, ty, d⟩).1.success = true ∧
       ((processVotePledge s n u ⟨e, ty, d⟩).1.reward).isSome = true) := by
  constructor
  · intro s1 s3 n1 n2 u e ty1 ty2 d1 d2 hsucc hext hwin
    have hpl : (⟨u, e, ty1, d1, n1⟩ : Pledge) ∈
        (processVotePledge s1 n1 u ⟨e, ty1, d1⟩).2.pledgeHistory := by
      rw [processVotePledge_success_pledge s1 n1 u ⟨e, ty1, d1⟩ hsucc]
      exact List.mem_append_right _ (List.mem_singleton.mpr rfl)
    have hmem := hext _ hpl
    unfold processVotePledge
    cases hf : s3.pledgeHistory.find? (fun pl =>
        pl.userId == u && pl.electionId == e &&
          decide (n2 - pl.timestamp < FRAUD_DETECTION_WINDOW)) with
    | none =>
      exfalso
      have := List.find?_eq_none.mp hf _ hmem
      simp [hwin] at this
    | some p => rfl
  · intro s n u e ty d hp ht
    have hfnone : s.pledgeHistory.find? (fun pl =>
        pl.userId == u && pl.electionId == e &&
          decide (n - pl.timestamp < FRAUD_DETECTION_WINDOW)) = none := by
      apply List.find?_eq_none.mpr
      intro pl hpl
      simp only [Bool.and_eq_true, beq_iff_eq, decide_eq_true_eq, not_and]
      intro ⟨hu, he⟩
      exact not_lt.mpr (hp pl hpl hu he)
    have hfraud :
        detectFraud { s with pledgeHistory :=
            s.pledgeHistory ++ [⟨u, e, ty, d, n⟩] } n u "vote_pledge"
          { electionId := some e } = false := by
      unfold detectFraud
      have hcond : (("vote_pledge" == "vote_pledge") &&
          (Option.some e).isSome) = true := by simp
      rw [if_pos hcond]
      apply List.any_eq_false.mpr
      intro t htf
      obtain ⟨htmem, htwin⟩ := List.mem_filter.mp htf
      simp only [txnInWindow, Bool.and_eq_true, beq_iff_eq,
        decide_eq_true_eq] at htwin
      obtain ⟨⟨hu, ha⟩, hw⟩ := htwin
      simp only [beq_iff_eq]
      intro heid
      exact absurd hw (not_lt.mpr (ht t htmem hu ha heid))
    have haward := awardXP_success_of
      { s with pledgeHistory := s.pledgeHistory ++ [⟨u, e, ty, d, n⟩] }
      n u "vote_pledge" { electionId := some e } (by decide) hfraud
    simp only [processVotePledge, hfnone]
    exact ⟨trivial, haward.2⟩

/-- Witness for C5: a second pledge for election `e1` with a different
    pledge type one millisecond later is rejected unchanged, while a pledge
    for election `e2` in the same window succeeds and carries a reward. -/
theorem processVotePledge_election_scoping_witness :
    processVotePledge
        (processVotePledge RewardState.init 0 "u" ⟨"e1", "early", ""⟩).2
        1 "u" ⟨"e1", "day-of", ""⟩ =
      ({ success := false,
         error := some "Duplicate pledge detected within 24 hours" },
       (processVotePledge RewardState.init 0 "u" ⟨"e1", "early", ""⟩).2) ∧
    ((processVotePledge
        (processVotePledge RewardState.init 0 "u" ⟨"e1", "early", ""⟩).2
        1 "u" ⟨"e2", "early", ""⟩).1.success = true ∧
     ((processVotePledge
        (processVotePledge RewardState.init 0 "u" ⟨"e1", "early", ""⟩).2
        1 "u" ⟨"e2", "early", ""⟩).1.reward).isSome = true) := by
  exact ⟨processVotePledge_election_scoping.1 RewardState.init
      (processVotePledge RewardState.init 0 "u" ⟨"e1", "early", ""⟩).2
      0 1 "u" "e1" "early" "day-of" "" "" (by decide) (fun p hp => hp)
      (by decide),
    processVotePledge_election_scoping.2
      (processVotePledge RewardState.init 0 "u" ⟨"e1", "early", ""⟩).2
      1 "u" "e2" "early" "" (by decide) (by decide)⟩

/-! ## C3 -/

lemma getLast?_cons_getLastD (x : AuditEntry) (xs : List AuditEntry) :
    (x :: xs).getLast? = some (xs.getLastD x) := by
  induction xs generalizing x with
  | nil => rfl
  | cons y ys ih => rw [List.getLast?_cons_cons, ih y, List.getLastD_cons]

lemma verifyChainFrom_append (prev : AuditEntry) (rest : List AuditEntry)
    (e : AuditEntry) :
    verifyChainFrom prev (rest ++ [e]) = true ↔
      (verifyChainFrom prev rest = true ∧ entryHashValid e = true ∧
       e.previousHash = some (rest.getLastD prev).hash) := by
  induction rest generalizing prev with
  | nil =>
    simp [verifyChainFrom, List.getLastD, Bool.and_eq_true, beq_iff_eq]
  | cons x xs ih =>
    constructor
    · intro h
      simp only [List.cons_append, verifyChainFrom, Bool.and_eq_true,
        beq_iff_eq] at h
      obtain ⟨⟨hx, hlink⟩, hrest⟩ := h
      obtain ⟨h1, h2, h3⟩ := (ih x).mp hrest
      refine ⟨?_, h2, by rw [List.getLastD_cons]; exact h3⟩
      simp only [verifyChainFrom, Bool.and_eq_true, beq_iff_eq]
      exact ⟨⟨hx, hlink⟩, h1⟩
    · rintro ⟨hchain, h2, h3⟩
      simp only [verifyChainFrom, Bool.and_eq_true, beq_iff_eq] at hchain
      obtain ⟨⟨hx, hlink⟩, h1⟩ := hchain
      simp only [List.cons_append, verifyChainFrom, Bool.and_eq_true,
        beq_iff_eq]
      exact ⟨⟨hx, hlink⟩,
        (ih x).mpr ⟨h1, h2, by rw [List.getLastD_cons] at h3; exact h3⟩⟩

/-- Appending a correctly hashed, correctly linked entry preserves chain
    validity. -/
lemma verifyAuditIntegrity_append (log : List AuditEntry) (e : AuditEntry)
    (hh : entryHashValid e = true)
    (hp : e.previousHash = log.getLast?.map (·.hash))
    (hv : verifyAuditIntegrity log = true) :
    verifyAuditIntegrity (log ++ [e]) = true := by
  cases log with
  | nil =>
    simp [verifyAuditIntegrity, verifyChainFrom, hh]
  | cons x xs =>
    rw [getLast?_cons_getLastD] at hp
    simp only [verifyAuditIntegrity, Bool.and_eq_true] at hv
    simp only [List.cons_append, verifyAuditIntegrity, Bool.and_eq_true]
    exact ⟨hv.1, (verifyChainFrom_append x xs e).mpr ⟨hv.2, hh, by simpa using hp⟩⟩

/-- `logModerationAction` appends exactly one correctly hashed and linked
    entry to the audit log (the reputation side effect only touches
    `userReputations`). -/
lemma logModerationAction_auditLog (s : GuardianState) (now : Nat)
    (freshId action : String) (md : AuditMetadata) :
    (logModerationAction s now freshId action md).2.auditLog =
      s.auditLog ++ [(logModerationAction s now freshId action md).1] := by
  unfold logModerationAction
  cases md.userId <;> simp [calculateUserReputation]

lemma logModerationAction_entry_valid (s : GuardianState) (now : Nat)
    (freshId action : String) (md : AuditMetadata) :
    entryHashValid (logModerationAction s now freshId action md).1 = true ∧
    (logModerationAction s now freshId action md).1.previousHash =
      s.auditLog.getLast?.map (·.hash) := by
  unfold logModerationAction
  cases md.userId <;> simp [entryHashValid, entryHashInput, sha256]

/-- Chains built solely by `logModerationAction` appends verify. -/
lemma runAuditOps_verified (ops : List AuditOp) (s : GuardianState)
    (hv : verifyAuditIntegrity s.auditLog = true) :
    verifyAuditIntegrity (runAuditOps s ops).auditLog = true := by
  induction ops generalizing s with
  | nil => exact hv
  | cons op ops ih =>
    apply ih
    rw [logModerationAction_auditLog]
    exact verifyAuditIntegrity_append _ _
      (logModerationAction_entry_valid s op.now op.freshId op.action op.metadata).1
      (logModerationAction_entry_valid s op.now op.freshId op.action op.metadata).2
      hv

/-- `verifyChainFrom` reads only the `hash` field of its predecessor. -/
lemma verifyChainFrom_hash_congr (prev q : AuditEntry)
    (rest : List AuditEntry) (h : prev.hash = q.hash) :
    verifyChainFrom prev rest = verifyChainFrom q rest := by
  cases rest with
  | nil => rfl
  | cons e es => simp [verifyChainFrom, h]

lemma verifyChainFrom_mutatePayloadAt (rest : List AuditEntry)
    (prev : AuditEntry) (i : Nat) (md : AuditMetadata) :
    verifyChainFrom prev (mutatePayloadAt rest i md) =
      verifyChainFrom prev rest := by
  induction rest generalizing prev i with
  | nil => cases i <;> rfl
  | cons e es ih =>
    cases i with
    | zero =>
      simp only [mutatePayloadAt, verifyChainFrom]
      rw [verifyChainFrom_hash_congr { e with metadata := md } e es rfl]
      rfl
    | succ j =>
      simp only [mutatePayloadAt, verifyChainFrom]
      rw [ih e j]

/-- Overwriting an entry's stored metadata payload is invisible to
    `verifyAuditIntegrity`: none of the hashed fields change and the hash
    input never includes the payload. -/
lemma verifyAuditIntegrity_mutatePayloadAt (log : List AuditEntry) (i : Nat)
    (md : AuditMetadata) :
    verifyAuditIntegrity (mutatePayloadAt log i md) =
      verifyAuditIntegrity log := by
  cases log with
  | nil => cases i <;> rfl
  | cons e es =>
    cases i with
    | zero =>
      simp only [mutatePayloadAt, verifyAuditIntegrity]
      rw [verifyChainFrom_hash_congr { e with metadata := md } e es rfl]
      rfl
    | succ j =>
      simp only [mutatePayloadAt, verifyAuditIntegrity]
      rw [verifyChainFrom_mutatePayloadAt es e j]

/-- Claim C3 (amended): a chain built solely by `logModerationAction`
    appends always verifies; each appended entry's hash is the digest of the
    canonical serialization of the five fields
    `{id, timestamp, action, contentId, decision}` only — not of the
    metadata payload — and its `previousHash` is the prior entry's hash,
    absent for the genesis entry; consequently mutating a stored entry's
    metadata payload leaves `verifyAuditIntegrity` unchanged (undetected)
    rather than making it fail at that position. -/
theorem auditChain_integrity_characterization :
    (∀ ops : List AuditOp,
       verifyAuditIntegrity (runAuditOps GuardianState.init ops).auditLog = true) ∧
    (∀ (s : GuardianState) (now : Nat) (freshId action : String)
       (md : AuditMetadata),
       (logModerationAction s now freshId action md).1.hash =
         sha256 ⟨freshId, now, action, md.contentId, md.decision⟩ ∧
       (logModerationAction s now freshId action md).1.previousHash =
         s.auditLog.getLast?.map (·.hash)) ∧
    (∀ (log : List AuditEntry) (i : Nat) (md : AuditMetadata),
       verifyAuditIntegrity (mutatePayloadAt log i md) =
         verifyAuditIntegrity log) := by
  refine ⟨fun ops => runAuditOps_verified ops GuardianState.init rfl,
          fun s now freshId action md => ⟨?_, (logModerationAction_entry_valid
            s now freshId action md).2⟩,
          verifyAuditIntegrity_mutatePayloadAt⟩
  unfold logModerationAction
  cases md.userId <;> rfl

/-- Counterexample to C3 as stated: append one entry, then overwrite its
    stored metadata payload; `verifyAuditIntegrity` still returns `true`
    because the payload is not covered by the entry hash. -/
theorem auditChain_payload_mutation_undetected :
    verifyAuditIntegrity
      (mutatePayloadAt
        (logModerationAction GuardianState.init 0 "audit_1" "flag_submitted"
          { contentId := some "c1", payload := "original" }).2.auditLog
        0 { contentId := some "c1", payload := "tampered" }) = true := by
  decide

/-! ## C6 -/

/-- Counterexample to C6 as stated: with the identical history (all counters
    zero, `accountCreated` at epoch 0) the score is 50 when computed at the
    creation instant but 60 when computed 100 days later — the account-age
    bonus makes the result depend on when the call executes. -/
theorem calculateUserReputation_clock_sensitive :
    (calculateUserReputation GuardianState.init 0 "u"
        { accountCreated := some 0 }).1.reputation = 50 ∧
    (calculateUserReputation GuardianState.init (100 * msPerDay) "u"
        { accountCreated := some 0 }).1.reputation = 60 ∧
    (calculateUserReputation GuardianState.init 0 "u"
        { accountCreated := some 0 }).1.reputation ≠
      (calculateUserReputation GuardianState.init (100 * msPerDay) "u"
        { accountCreated := some 0 }).1.reputation := by
  decide

/-- Claim C6 (amended): `calculateUserReputation` is a pure function of the
    provided action history and the evaluation clock: its result ignores all
    prior engine state, is determined by `(history, now)` alone, and its
    breakdown does not depend on the clock at all.  (As stated the claim
    fails: the score itself shifts with the clock via the account-age
    bonus.) -/
theorem calculateUserReputation_pure_in_history_and_clock :
    (∀ (s1 s2 : GuardianState) (now : Nat) (u : String) (h : UserHistory),
       (calculateUserReputation s1 now u h).1 =
         (calculateUserReputation s2 now u h).1) ∧
    (∀ (s : GuardianState) (now : Nat) (u : String) (h : UserHistory),
       (calculateUserReputation s now u h).1 =
         ⟨u, jsRound (reputationScore now (getUserHistory now h)),
          getTrustLevel (reputationScore now (getUserHistory now h)),
          getReputationBreakdown (getUserHistory now h)⟩) ∧
    (∀ (now1 now2 : Nat) (h : UserHistory),
       getReputationBreakdown (getUserHistory now1 h) =
         getReputationBreakdown (getUserHistory now2 h)) :=
  ⟨fun _ _ _ _ _ => rfl, fun _ _ _ _ => rfl, fun _ _ _ => rfl⟩

/-! ## C7 -/

/-- Counterexample to C7 as stated: the history
    `{flag_verified: 2, quiz_perfect_score: 1}` with the account created at
    the call instant scores `50 + 20 + 5 = 75`, and 75 is below the
    high-trust threshold 80, so the tier is `"medium"`, not `"high"`. -/
theorem reputation_75_scores_medium :
    (calculateUserReputation GuardianState.init 0 "u"
        { flag_verified := 2, quiz_perfect_score := 1,
          accountCreated := some 0 }).1.reputation = 75 ∧
    (calculateUserReputation GuardianState.init 0 "u"
        { flag_verified := 2, quiz_perfect_score := 1,
          accountCreated := some 0 }).1.trustLevel = "medium" ∧
    (calculateUserReputation GuardianState.init 0 "u"
        { flag_verified := 2, quiz_perfect_score := 1,
          accountCreated := some 0 }).1.trustLevel ≠ "high" := by
  decide

/-- Claim C7 (amended): `{flag_verified: 2, quiz_perfect_score: 1}` scores
    75 with trust level `"medium"` (not `"high"`);
    `{flag_rejected: 3, community_reports: 2}` scores 5 with `"flagged"`;
    and the tier function is exactly the spec's step function (≥ 80 high,
    ≥ 50 medium, ≥ 20 low, else flagged). -/
theorem reputation_scenarios_and_tiers :
    ((calculateUserReputation GuardianState.init 0 "u"
        { flag_verified := 2, quiz_perfect_score := 1,
          accountCreated := some 0 }).1.reputation = 75 ∧
     (calculateUserReputation GuardianState.init 0 "u"
        { flag_verified := 2, quiz_perfect_score := 1,
          accountCreated := some 0 }).1.trustLevel = "medium") ∧
    ((calculateUserReputation GuardianState.init 0 "u"
        { flag_rejected := 3, community_reports := 2,
          accountCreated := some 0 }).1.reputation = 5 ∧
     (calculateUserReputation GuardianState.init 0 "u"
        { flag_rejected := 3, community_reports := 2,
          accountCreated := some 0 }).1.trustLevel = "flagged") ∧
    (∀ score : ℚ, getTrustLevel score = specTrustTier score) := by
  exact ⟨⟨by decide, by decide⟩, ⟨by decide, by decide⟩, fun _ => rfl⟩

/-! ## C8 -/

/-- Counterexample to C8 as stated: the history `{flag_rejected: 4}` scores
    30 — squarely in the low tier — yet `getUserTrustMetrics` reports an
    empty restriction list: `limited_flagging` and
    `content_review_required` only attach below score 20. -/
theorem low_trust_user_gets_no_restrictions :
    (calculateUserReputation GuardianState.init 0 "u"
        { flag_rejected := 4, accountCreated := some 0 }).1.trustLevel =
      "low" ∧
    getUserTrustMetrics
        (calculateUserReputation GuardianState.init 0 "u"
          { flag_rejected := 4, accountCreated := some 0 }).2 "u" =
      some ⟨"u", 30, "low", 0.8, false, []⟩ := by
  decide

/-- The restrictions reported by `getUserTrustMetrics` are
    `getUserRestrictions` of the stored, rounded score. -/
lemma getUserTrustMetrics_restrictions (s : GuardianState) (u : String)
    (m : TrustMetrics) (hm : getUserTrustMetrics s u = some m) :
    m.restrictions = getUserRestrictions (m.reputation : ℚ) := by
  unfold getUserTrustMetrics at hm
  obtain ⟨rep, -, hrep⟩ := Option.map_eq_some'.mp hm
  rw [← hrep]

/-- Claim C8 (amended): a low-tier user (score in `[20, 50)`) receives NO
    restrictions; `limited_flagging` and `content_review_required` attach
    only below score 20 (the flagged tier); `account_suspended` would
    require a negative score, which the clamped reputation pipeline never
    stores, so it is never reported. -/
theorem restrictions_only_below_low_trust :
    (∀ (s : GuardianState) (u : String) (m : TrustMetrics),
       getUserTrustMetrics s u = some m → 20 ≤ m.reputation →
       m.restrictions = []) ∧
    (∀ (s : GuardianState) (u : String) (m : TrustMetrics),
       getUserTrustMetrics s u = some m → 0 ≤ m.reputation →
       m.reputation < 20 →
       m.restrictions = ["limited_flagging", "content_review_required"]) ∧
    (∀ (s : GuardianState) (u : String) (m : TrustMetrics),
       getUserTrustMetrics s u = some m → 0 ≤ m.reputation →
       "account_suspended" ∉ m.restrictions) ∧
    (∀ (s : GuardianState) (now : Nat) (u : String) (h : UserHistory),
       0 ≤ (calculateUserReputation s now u h).1.reputation ∧
       (calculateUserReputation s now u h).1.reputation ≤ 100) := by
  have hchar : ∀ r : ℚ, getUserRestrictions r =
      (if r < 20 then ["limited_flagging", "content_review_required"]
       else []) ++ (if r < 0 then ["account_suspended"] else []) :=
    fun _ => rfl
  refine ⟨?_, ?_, ?_, ?_⟩
  · intro s u m hm h20
    rw [getUserTrustMetrics_restrictions s u m hm, hchar]
    have h20q : ¬ ((m.reputation : ℚ) < 20) := by
      rw [not_lt]; exact_mod_cast h20
    have h0q : ¬ ((m.reputation : ℚ) < 0) := by
      rw [not_lt]
      have h0 : (0 : Int) ≤ m.reputation := le_trans (by norm_num) h20
      exact_mod_cast h0
    rw [if_neg h20q, if_neg h0q]
    rfl
  · intro s u m hm h0 h20
    rw [getUserTrustMetrics_restrictions s u m hm, hchar]
    have h20q : (m.reputation : ℚ) < 20 := by exact_mod_cast h20
    have h0q : ¬ ((m.reputation : ℚ) < 0) := by
      rw [not_lt]; exact_mod_cast h0
    rw [if_pos h20q, if_neg h0q]
    rfl
  · intro s u m hm h0
    rw [getUserTrustMetrics_restrictions s u m hm, hchar]
    have h0q : ¬ ((m.reputation : ℚ) < 0) := by
      rw [not_lt]; exact_mod_cast h0
    rw [if_neg h0q]
    by_cases h20q : (m.reputation : ℚ) < 20
    · rw [if_pos h20q]; decide
    · rw [if_neg h20q]; decide
  · intro s now u h
    have hrep : (calculateUserReputation s now u h).1.reputation =
        jsRound (reputationScore now (getUserHistory now h)) := rfl
    set q : ℚ := reputationScore now (getUserHistory now h) with hq
    have hlo : (0 : ℚ) ≤ q := le_max_left 0 _
    have hhi : q ≤ 100 := by
      rw [hq, reputationScore]
      exact max_le (by norm_num) (min_le_left _ _)
    constructor
    · rw [hrep]
      exact Int.le_floor.mpr (by push_cast; linarith)
    · rw [hrep]
      have hlt : jsRound q < 101 := by
        rw [jsRound]
        exact Int.floor_lt.mpr (by push_cast; linarith)
      omega

/-- Witness for C8 (amended): the stored user with score 30 (low tier) has
    no restriction; the stored user with score 5 (flagged tier) gets exactly
    `limited_flagging` and `content_review_required` and is never
    suspended; a concrete reputation computation stays within `[0, 100]`. -/
theorem restrictions_only_below_low_trust_witness :
    (TrustMetrics.mk "u" 30 "low" 0.8 false []).restrictions = [] ∧
    (TrustMetrics.mk "u" 5 "flagged" 0.5 false
        ["limited_flagging", "content_review_required"]).restrictions =
      ["limited_flagging", "content_review_required"] ∧
    "account_suspended" ∉
      (TrustMetrics.mk "u" 5 "flagged" 0.5 false
        ["limited_flagging", "content_review_required"]).restrictions ∧
    (0 ≤ (calculateUserReputation GuardianState.init 0 "u" {}).1.reputation ∧
     (calculateUserReputation GuardianState.init 0 "u" {}).1.reputation ≤ 100) := by
  refine ⟨restrictions_only_below_low_trust.1
      (calculateUserReputation GuardianState.init 0 "u"
        { flag_rejected := 4, accountCreated := some 0 }).2 "u"
      ⟨"u", 30, "low", 0.8, false, []⟩ (by decide) (by decide),
    restrictions_only_below_low_trust.2.1
      (calculateUserReputation GuardianState.init 0 "u"
        { flag_rejected := 3, community_reports := 2,
          accountCreated := some 0 }).2 "u"
      ⟨"u", 5, "flagged", 0.5, false,
        ["limited_flagging", "content_review_required"]⟩
      (by decide) (by decide) (by decide),
    restrictions_only_below_low_trust.2.2.1
      (calculateUserReputation GuardianState.init 0 "u"
        { flag_rejected := 3, community_reports := 2,
          accountCreated := some 0 }).2 "u"
      ⟨"u", 5, "flagged", 0.5, false,
        ["limited_flagging", "content_review_required"]⟩
      (by decide) (by decide),
    restrictions_only_below_low_trust.2.2.2 GuardianState.init 0 "u" {}⟩

end

end Civvy
